import Mathlib

set_option maxRecDepth 1000000
set_option maxHeartbeats 4000000

/-!
Verification of the db-testkit credential-extraction and generation pipeline.

The development shallowly embeds the Go sources:
 - `pkg/docker` types (`DockerCompose`, `Service`, `TestDBCredentials`) and the
   extractor (`ExtractCredentials`, `extractHostPort`);
 - `pkg/generator` (`GenerateTaskfile` from pkg/generator/taskfile.go,
   `GenerateConnectionProfiles` from pkg/generator/profiles.go).
Go maps become association lists (`List.lookup`); Go's zero-value map indexing
becomes `envGet` (lookup defaulting to the empty string); errors become
`Except String`; file-system effects become explicit state passing over a
`FileSystem` record, with paths as component lists (`filepath.Dir` is
`List.dropLast`, `os.MkdirAll` adds all prefixes, `os.Create` truncates an
existing file and fails when the parent directory is absent).  The text
templates are embedded verbatim as string chunks, with the `text/template`
actions `\x7b\x7b.Field\x7d\x7d` becoming string concatenation and the
generation timestamp an explicit parameter.
-/

/-- A single service definition from docker-compose.yml (pkg/docker/config.go):
an environment mapping and an ordered port-mapping sequence. -/
structure Service where
  environment : List (String × String)
  ports : List String
deriving DecidableEq

/-- The parsed docker-compose document (pkg/docker/config.go): a mapping of
service name to `Service`. -/
structure DockerCompose where
  services : List (String × Service)
deriving DecidableEq

/-- Extracted credentials for both test databases (pkg/docker/config.go). -/
structure TestDBCredentials where
  CustomerHost : String
  CustomerPort : String
  CustomerUser : String
  CustomerPassword : String
  CustomerDB : String
  InternalHost : String
  InternalPort : String
  InternalUser : String
  InternalPassword : String
  InternalDB : String
deriving DecidableEq

/-- Go map indexing `env[key]`: the value when present, the zero value `""`
when absent. -/
def envGet (env : List (String × String)) (key : String) : String :=
  (env.lookup key).getD ""

/-- The character loop inside `extractHostPort`: scanning left to right, the
prefix strictly before the first colon, or `none` when no colon occurs
(mirrors `for i, c := range port` with `return port[:i]` at the first `:`). -/
def portBeforeColon : List Char → Option (List Char)
  | [] => none
  | c :: cs => if c = ':' then some [] else (portBeforeColon cs).map (c :: ·)

/-- `extractHostPort` from pkg/docker/compose.go: the host side of the first
port mapping, or the default when the sequence is empty or the first entry
has no colon. -/
def extractHostPort (ports : List String) (defaultPort : String) : String :=
  match ports with
  | [] => defaultPort
  | port :: _ =>
    match portBeforeColon port.data with
    | some pre => String.mk pre
    | none => defaultPort

/-- `ExtractCredentials` from pkg/docker/compose.go. -/
def ExtractCredentials (dc : DockerCompose) : Except String TestDBCredentials :=
  match dc.services.lookup "db-test-customer" with
  | none => .error "db-test-customer service not found in docker-compose.yml"
  | some customerService =>
    match dc.services.lookup "db-test-internal" with
    | none => .error "db-test-internal service not found in docker-compose.yml"
    | some internalService =>
      .ok {
        CustomerHost := "localhost"
        CustomerPort := extractHostPort customerService.ports "5555"
        CustomerUser := envGet customerService.environment "POSTGRES_USER"
        CustomerPassword := envGet customerService.environment "POSTGRES_PASSWORD"
        CustomerDB := envGet customerService.environment "POSTGRES_DB"
        InternalHost := "localhost"
        InternalPort := extractHostPort internalService.ports "6666"
        InternalUser := envGet internalService.environment "POSTGRES_USER"
        InternalPassword := envGet internalService.environment "POSTGRES_PASSWORD"
        InternalDB := envGet internalService.environment "POSTGRES_DB" }

/-- The spec's wording of port extraction: split the first entry at the first
colon and keep the left-hand substring, defaulting when the sequence is empty
or no colon is present. -/
def extractHostPortSpec (ports : List String) (defaultPort : String) : String :=
  match ports with
  | [] => defaultPort
  | port :: _ =>
    if ':' ∈ port.data then String.mk (port.data.takeWhile (fun ch => ch != ':'))
    else defaultPort

/-- The error message `ExtractCredentials` produces for an absent required
service, naming that service. -/
def missingServiceMsg (name : String) : String :=
  name ++ " service not found in docker-compose.yml"

/-- Sample credentials (the spec's end-to-end scenario values). -/
def sampleCreds : TestDBCredentials :=
  { CustomerHost := "localhost", CustomerPort := "5555", CustomerUser := "autotester",
    CustomerPassword := "autotestpass", CustomerDB := "testcustomerdb",
    InternalHost := "localhost", InternalPort := "6666", InternalUser := "autotester",
    InternalPassword := "autotestpass", InternalDB := "testinternaldb" }

/-- Sample customer service (the spec's end-to-end scenario). -/
def sampleCustomerService : Service :=
  { environment := [("POSTGRES_USER", "autotester"), ("POSTGRES_PASSWORD", "autotestpass"),
                    ("POSTGRES_DB", "testcustomerdb")],
    ports := ["5555:5432"] }

/-- Sample internal service (the spec's end-to-end scenario). -/
def sampleInternalService : Service :=
  { environment := [("POSTGRES_USER", "autotester"), ("POSTGRES_PASSWORD", "autotestpass"),
                    ("POSTGRES_DB", "testinternaldb")],
    ports := ["6666:5432"] }

/-- Sample parsed document containing both required services. -/
def sampleCompose : DockerCompose :=
  { services := [("db-test-customer", sampleCustomerService),
                 ("db-test-internal", sampleInternalService)] }

/-- A service declaring only the user key, used to exercise soft defaults. -/
def userOnlyService : Service :=
  { environment := [("POSTGRES_USER", "u")], ports := [] }

theorem portBeforeColon_of_not_mem (cs : List Char) (h : ':' ∉ cs) :
    portBeforeColon cs = none := by
  induction cs with
  | nil => rfl
  | cons a as ih =>
    have h1 : ¬(a = ':') := fun e => h (by simp [e])
    have h2 : ':' ∉ as := fun m => h (List.mem_cons_of_mem _ m)
    simp [portBeforeColon, h1, ih h2]

theorem portBeforeColon_of_mem (cs : List Char) (h : ':' ∈ cs) :
    portBeforeColon cs = some (cs.takeWhile (fun ch => ch != ':')) := by
  induction cs with
  | nil => cases h
  | cons a as ih =>
    by_cases ha : a = ':'
    · subst ha
      simp [portBeforeColon]
    · have h2 : ':' ∈ as := by
        rcases List.mem_cons.mp h with h' | h'
        · exact absurd h'.symm ha
        · exact h'
      simp [portBeforeColon, ha, ih h2, bne_iff_ne]

theorem extractHostPort_eq_spec (ports : List String) (d : String) :
    extractHostPort ports d = extractHostPortSpec ports d := by
  cases ports with
  | nil => rfl
  | cons p rest =>
    by_cases h : ':' ∈ p.data
    · simp [extractHostPort, extractHostPortSpec, h, portBeforeColon_of_mem _ h]
    · simp [extractHostPort, extractHostPortSpec, h, portBeforeColon_of_not_mem _ h]

/-- C1: the extracted host-side port takes the first port-mapping entry, splits
it at the first colon and keeps the left-hand substring; an empty sequence or a
first entry without a colon yields the component default, which
`ExtractCredentials` instantiates as "5555" for db-test-customer and "6666"
for db-test-internal; `["5555:5432"]` gives "5555", `[]` and `["5432"]` give
the default, `["1:2:3"]` gives "1", and entries after the first are ignored. -/
theorem extractHostPort_first_mapping_split :
    (∀ ports d, extractHostPort ports d = extractHostPortSpec ports d)
    ∧ (∀ d, extractHostPort ["5555:5432"] d = "5555")
    ∧ (∀ d, extractHostPort [] d = d)
    ∧ (∀ d, extractHostPort ["5432"] d = d)
    ∧ (∀ d, extractHostPort ["1:2:3"] d = "1")
    ∧ (∀ p rest d, extractHostPort (p :: rest) d = extractHostPort [p] d)
    ∧ (∀ dc cs ins, dc.services.lookup "db-test-customer" = some cs →
        dc.services.lookup "db-test-internal" = some ins →
        ∃ creds, ExtractCredentials dc = .ok creds ∧
          creds.CustomerPort = extractHostPort cs.ports "5555" ∧
          creds.InternalPort = extractHostPort ins.ports "6666") := by
  refine ⟨extractHostPort_eq_spec, fun d => rfl, fun d => rfl, fun d => rfl, fun d => rfl,
    fun p rest d => rfl, fun dc cs ins h1 h2 => ?_⟩
  refine ⟨{
      CustomerHost := "localhost"
      CustomerPort := extractHostPort cs.ports "5555"
      CustomerUser := envGet cs.environment "POSTGRES_USER"
      CustomerPassword := envGet cs.environment "POSTGRES_PASSWORD"
      CustomerDB := envGet cs.environment "POSTGRES_DB"
      InternalHost := "localhost"
      InternalPort := extractHostPort ins.ports "6666"
      InternalUser := envGet ins.environment "POSTGRES_USER"
      InternalPassword := envGet ins.environment "POSTGRES_PASSWORD"
      InternalDB := envGet ins.environment "POSTGRES_DB" }, ?_, rfl, rfl⟩
  simp [ExtractCredentials, h1, h2]

/-- Witness for C1 at the spec's end-to-end sample document. -/
theorem extractHostPort_first_mapping_split_witness :
    ∃ creds, ExtractCredentials sampleCompose = .ok creds ∧
      creds.CustomerPort = extractHostPort sampleCustomerService.ports "5555" ∧
      creds.InternalPort = extractHostPort sampleInternalService.ports "6666" :=
  extractHostPort_first_mapping_split.2.2.2.2.2.2 sampleCompose
    sampleCustomerService sampleInternalService (by decide) (by decide)

/-- C2: when either required service key is absent (exact-name lookup),
`ExtractCredentials` fails with the error naming exactly the absent service,
producing no credentials; when both are absent the first one checked,
db-test-customer, is named. -/
theorem extractCredentials_missing_service_error :
    (∀ dc : DockerCompose, dc.services.lookup "db-test-customer" = none →
      ExtractCredentials dc = .error (missingServiceMsg "db-test-customer"))
    ∧ (∀ (dc : DockerCompose) cs, dc.services.lookup "db-test-customer" = some cs →
        dc.services.lookup "db-test-internal" = none →
        ExtractCredentials dc = .error (missingServiceMsg "db-test-internal"))
    ∧ (∀ dc : DockerCompose, dc.services.lookup "db-test-customer" = none →
        dc.services.lookup "db-test-internal" = none →
        ExtractCredentials dc = .error (missingServiceMsg "db-test-customer"))
    ∧ (∀ (dc : DockerCompose) creds, ExtractCredentials dc = .ok creds →
        (∃ s, dc.services.lookup "db-test-customer" = some s) ∧
        (∃ s, dc.services.lookup "db-test-internal" = some s)) := by
  refine ⟨fun dc h => by simp [ExtractCredentials, h, missingServiceMsg],
    fun dc cs h1 h2 => by simp [ExtractCredentials, h1, h2, missingServiceMsg],
    fun dc h1 _ => by simp [ExtractCredentials, h1, missingServiceMsg],
    fun dc creds h => ?_⟩
  unfold ExtractCredentials at h
  cases hc : dc.services.lookup "db-test-customer" with
  | none =>
    rw [hc] at h
    cases h
  | some cs =>
    cases hi : dc.services.lookup "db-test-internal" with
    | none =>
      rw [hc, hi] at h
      cases h
    | some ins => exact ⟨⟨cs, rfl⟩, ⟨ins, rfl⟩⟩

/-- Witness for C2: the empty document and a document with only the customer
service. -/
theorem extractCredentials_missing_service_error_witness :
    ExtractCredentials { services := [] } =
      .error (missingServiceMsg "db-test-customer")
    ∧ ExtractCredentials { services := [("db-test-customer", sampleCustomerService)] } =
      .error (missingServiceMsg "db-test-internal") :=
  ⟨extractCredentials_missing_service_error.1 { services := [] } (by decide),
   extractCredentials_missing_service_error.2.1
     { services := [("db-test-customer", sampleCustomerService)] }
     sampleCustomerService (by decide) (by decide)⟩

/-- C3: with both required services present, absence of any of the three
environment keys is never an error: extraction still succeeds and the
corresponding field is the empty string. -/
theorem extractCredentials_missing_env_soft_default
    (dc : DockerCompose) (cs ins : Service)
    (h1 : dc.services.lookup "db-test-customer" = some cs)
    (h2 : dc.services.lookup "db-test-internal" = some ins) :
    ∃ creds, ExtractCredentials dc = .ok creds
      ∧ (cs.environment.lookup "POSTGRES_USER" = none → creds.CustomerUser = "")
      ∧ (cs.environment.lookup "POSTGRES_PASSWORD" = none → creds.CustomerPassword = "")
      ∧ (cs.environment.lookup "POSTGRES_DB" = none → creds.CustomerDB = "")
      ∧ (ins.environment.lookup "POSTGRES_USER" = none → creds.InternalUser = "")
      ∧ (ins.environment.lookup "POSTGRES_PASSWORD" = none → creds.InternalPassword = "")
      ∧ (ins.environment.lookup "POSTGRES_DB" = none → creds.InternalDB = "") := by
  refine ⟨{
      CustomerHost := "localhost"
      CustomerPort := extractHostPort cs.ports "5555"
      CustomerUser := envGet cs.environment "POSTGRES_USER"
      CustomerPassword := envGet cs.environment "POSTGRES_PASSWORD"
      CustomerDB := envGet cs.environment "POSTGRES_DB"
      InternalHost := "localhost"
      InternalPort := extractHostPort ins.ports "6666"
      InternalUser := envGet ins.environment "POSTGRES_USER"
      InternalPassword := envGet ins.environment "POSTGRES_PASSWORD"
      InternalDB := envGet ins.environment "POSTGRES_DB" },
    by simp [ExtractCredentials, h1, h2], ?_, ?_, ?_, ?_, ?_, ?_⟩ <;>
    · intro h
      simp [envGet, h]

/-- Witness for C3: a document whose customer service lacks the password key. -/
theorem extractCredentials_missing_env_soft_default_witness :
    ∃ creds,
      ExtractCredentials
        { services := [("db-test-customer", userOnlyService),
                       ("db-test-internal", sampleInternalService)] } = .ok creds
      ∧ (userOnlyService.environment.lookup "POSTGRES_PASSWORD" = none →
          creds.CustomerPassword = "") := by
  obtain ⟨creds, hok, _, hpw, _⟩ :=
    extractCredentials_missing_env_soft_default
      { services := [("db-test-customer", userOnlyService),
                     ("db-test-internal", sampleInternalService)] }
      userOnlyService sampleInternalService (by decide) (by decide)
  exact ⟨creds, hok, hpw⟩

/-- C4: with both required services present, extraction succeeds; both host
fields are the literal "localhost" and the user, password and database-name
fields are exactly the strings found in the corresponding service's
environment mapping (Go zero-value lookup), with ports from the first
port mapping. -/
theorem extractCredentials_success_fields
    (dc : DockerCompose) (cs ins : Service)
    (h1 : dc.services.lookup "db-test-customer" = some cs)
    (h2 : dc.services.lookup "db-test-internal" = some ins) :
    ExtractCredentials dc = .ok {
      CustomerHost := "localhost"
      CustomerPort := extractHostPort cs.ports "5555"
      CustomerUser := envGet cs.environment "POSTGRES_USER"
      CustomerPassword := envGet cs.environment "POSTGRES_PASSWORD"
      CustomerDB := envGet cs.environment "POSTGRES_DB"
      InternalHost := "localhost"
      InternalPort := extractHostPort ins.ports "6666"
      InternalUser := envGet ins.environment "POSTGRES_USER"
      InternalPassword := envGet ins.environment "POSTGRES_PASSWORD"
      InternalDB := envGet ins.environment "POSTGRES_DB" } := by
  simp [ExtractCredentials, h1, h2]

/-- Witness for C4: the spec's end-to-end sample document yields exactly the
sample credentials. -/
theorem extractCredentials_success_fields_witness :
    ExtractCredentials sampleCompose = .ok {
      CustomerHost := "localhost"
      CustomerPort := extractHostPort sampleCustomerService.ports "5555"
      CustomerUser := envGet sampleCustomerService.environment "POSTGRES_USER"
      CustomerPassword := envGet sampleCustomerService.environment "POSTGRES_PASSWORD"
      CustomerDB := envGet sampleCustomerService.environment "POSTGRES_DB"
      InternalHost := "localhost"
      InternalPort := extractHostPort sampleInternalService.ports "6666"
      InternalUser := envGet sampleInternalService.environment "POSTGRES_USER"
      InternalPassword := envGet sampleInternalService.environment "POSTGRES_PASSWORD"
      InternalDB := envGet sampleInternalService.environment "POSTGRES_DB" } :=
  extractCredentials_success_fields sampleCompose
    sampleCustomerService sampleInternalService (by decide) (by decide)

/-- C9: a first port-mapping entry beginning with a colon yields the empty
string as the port, not the default and not an error; when a colon is present
the result is always the prefix before it, and the default arises exactly from
an empty sequence or a colon-free first entry. -/
theorem extractHostPort_leading_colon_empty :
    (∀ p rest d, p.data.head? = some ':' → extractHostPort (p :: rest) d = "")
    ∧ (∀ d, extractHostPort [":5432"] d = "")
    ∧ (∀ p rest d, ':' ∈ p.data →
        extractHostPort (p :: rest) d = String.mk (p.data.takeWhile (fun ch => ch != ':')))
    ∧ (∀ d, extractHostPort [] d = d)
    ∧ (∀ p rest d, ':' ∉ p.data → extractHostPort (p :: rest) d = d) := by
  refine ⟨fun p rest d h => ?_, fun d => rfl,
    fun p rest d h => by simp [extractHostPort, portBeforeColon_of_mem _ h],
    fun d => rfl,
    fun p rest d h => by simp [extractHostPort, portBeforeColon_of_not_mem _ h]⟩
  rcases hd : p.data with _ | ⟨a, as⟩
  · rw [hd] at h
    cases h
  · rw [hd] at h
    have ha : a = ':' := by
      simpa using h
    subst ha
    simp [extractHostPort, hd, portBeforeColon]

/-- Witness for C9 at the entry ":5432". -/
theorem extractHostPort_leading_colon_empty_witness :
    extractHostPort ([":5432"] : List String) "5555" = "" :=
  extractHostPort_leading_colon_empty.1 ":5432" [] "5555" (by decide)

/-- C10: the result of `ExtractCredentials` depends only on the
db-test-customer and db-test-internal entries: two documents whose lookups of
those two keys agree extract identically, whatever else they contain. -/
theorem extractCredentials_depends_only_on_required_services
    (d1 d2 : DockerCompose)
    (h1 : d1.services.lookup "db-test-customer" = d2.services.lookup "db-test-customer")
    (h2 : d1.services.lookup "db-test-internal" = d2.services.lookup "db-test-internal") :
    ExtractCredentials d1 = ExtractCredentials d2 := by
  unfold ExtractCredentials
  rw [h1, h2]

/-- Witness for C10: adding an unrelated service and extra environment keys
does not change the extracted credentials. -/
theorem extractCredentials_depends_only_on_required_services_witness :
    ExtractCredentials
      { services := [("db-test-customer", sampleCustomerService),
                     ("db-test-internal", sampleInternalService),
                     ("db", { environment := [("POSTGRES_USER", "dev")], ports := ["5432:5432"] })] } =
    ExtractCredentials sampleCompose :=
  extractCredentials_depends_only_on_required_services _ _ (by decide) (by decide)
def tfGen : String :=
  "# 🤖 THIS FILE IS AUTO-GENERATED from docker-compose.yml\n# DO NOT EDIT MANUALLY - Run \x27go generate ./...\x27 or your dev tool to regenerate\n# Generated on: "

def tfSrc : String :=
  "\n# Source: docker-compose.yml\n# ---------------------------------------------------------------------------\n\nversion: \x273\x27\n\n"

def taskfileVarsSection (c : TestDBCredentials) : String :=
  "vars:\n  # Automated testing database credentials (from docker-compose.yml)\n  TEST_CUSTOMER_HOST: \""
  ++ c.CustomerHost
  ++ "\"\n  TEST_CUSTOMER_PORT: \""
  ++ c.CustomerPort
  ++ "\"\n  TEST_CUSTOMER_USER: \""
  ++ c.CustomerUser
  ++ "\"\n  TEST_CUSTOMER_PASSWORD: \""
  ++ c.CustomerPassword
  ++ "\"\n  TEST_CUSTOMER_DB: \""
  ++ c.CustomerDB
  ++ "\"\n\n  TEST_INTERNAL_HOST: \""
  ++ c.InternalHost
  ++ "\"\n  TEST_INTERNAL_PORT: \""
  ++ c.InternalPort
  ++ "\"\n  TEST_INTERNAL_USER: \""
  ++ c.InternalUser
  ++ "\"\n  TEST_INTERNAL_PASSWORD: \""
  ++ c.InternalPassword
  ++ "\"\n  TEST_INTERNAL_DB: \""
  ++ c.InternalDB
  ++ "\"\n\n"

def taskfileStartBlock : String :=
  "tasks:\n  # Override database commands with generated credentials\n  test:db:start:generated:\n    desc: Start the automated testing PostgreSQL databases (using generated credentials)\n    cmds:\n      - echo \"Starting automated testing PostgreSQL databases...\"\n      - docker compose up -d db-test-customer db-test-internal\n      - echo \"Waiting for test databases to become healthy...\"\n      - ./scripts/wait-for-healthy.sh pg-test-customer 90\n      - ./scripts/wait-for-healthy.sh pg-test-internal 90\n      - echo \"✅ Automated testing databases are ready!\"\n\n"

def tfTk1 : String :=
  "  test:db:psql:generated:\n    desc: Connect to automated testing customer PostgreSQL with psql (using generated credentials)\n    cmds:\n      - docker exec -it pg-test-customer psql -U "

def tfTk2 : String :=
  " -d "

def tfTk3 : String :=
  "\n\n  test:db:psql:internal:generated:\n    desc: Connect to automated testing internal PostgreSQL with psql (using generated credentials)\n    cmds:\n      - docker exec -it pg-test-internal psql -U "

def tfTk4 : String :=
  " -d "

def tfTk5 : String :=
  "\n\n  # Seed data management tasks (from db-testkit)\n  # Dev database seed tasks (manual testing)\n  seed:load:dev:generated:\n    desc: Load seed data into dev customer database (configurable via SEED_DATA_PATH)\n    cmds:\n      - |\n        SEED_FILE=\"$\x7bSEED_DATA_PATH:-../db-testkit/testdata/seeds/olist.sql\x7d\"\n        echo \"Checking seed data file: $SEED_FILE\"\n        if [ ! -f \"$SEED_FILE\" ]; then\n          echo \"⚠️  WARNING: Seed data file not found at: $SEED_FILE\"\n          echo \"⚠️  Skipping seed data loading for dev database\"\n          echo \"⚠️  To fix: Set SEED_DATA_PATH environment variable or ensure db-testkit is cloned\"\n          echo \"⚠️  Example: export SEED_DATA_PATH=/path/to/your/seed.sql\"\n          exit 0\n        fi\n        echo \"Loading seed data from $SEED_FILE into dev customer database...\"\n        if cat \"$SEED_FILE\" | docker exec -i pg-customer psql -U dev -d customerdb 2>&1 | grep -v \"does not exist, skipping\"; then\n          echo \"✓ Successfully loaded seed data into dev customer database\"\n        else\n          echo \"⚠️  WARNING: Failed to load seed data into dev customer database\"\n          echo \"⚠️  This may be expected if the database is not running or the seed data has issues\"\n          exit 0\n        fi\n\n  seed:verify:dev:generated:\n    desc: Verify seed data in dev customer database (from db-testkit)\n    cmds:\n      - echo \"Verifying seed data in dev customer database...\"\n      - docker exec pg-customer psql -U dev -d customerdb -c \"SELECT schemaname, relname as tablename, n_live_tup as row_count FROM pg_stat_user_tables WHERE schemaname = \x27stage\x27 AND relname LIKE \x27olist%\x27 ORDER BY relname;\"\n\n  seed:reload:dev:generated:\n    desc: Reload seed data in dev customer database (from db-testkit)\n    cmds:\n      - echo \"Dropping stage schema in dev customer database...\"\n      - docker exec pg-customer psql -U dev -d customerdb -c \"DROP SCHEMA IF EXISTS stage CASCADE;\"\n      - task: seed:load:dev:generated\n\n  seed:clean:dev:generated:\n    desc: Clean seed data from dev customer database (from db-testkit)\n    cmds:\n      - echo \"Dropping stage schema from dev customer database...\"\n      - docker exec pg-customer psql -U dev -d customerdb -c \"DROP SCHEMA IF EXISTS stage CASCADE;\"\n      - echo \"✓ Successfully dropped stage schema from dev customer database\"\n\n  # Test database seed tasks (automated testing)\n  seed:load:test:generated:\n    desc: Load seed data into test customer database (configurable via SEED_DATA_PATH)\n    cmds:\n      - |\n        SEED_FILE=\"$\x7bSEED_DATA_PATH:-../db-testkit/testdata/seeds/olist.sql\x7d\"\n        echo \"Checking seed data file: $SEED_FILE\"\n        if [ ! -f \"$SEED_FILE\" ]; then\n          echo \"⚠️  WARNING: Seed data file not found at: $SEED_FILE\"\n          echo \"⚠️  Skipping seed data loading for test database\"\n          echo \"⚠️  To fix: Set SEED_DATA_PATH environment variable or ensure db-testkit is cloned\"\n          echo \"⚠️  Example: export SEED_DATA_PATH=/path/to/your/seed.sql\"\n          exit 0\n        fi\n        echo \"Loading seed data from $SEED_FILE into test customer database...\"\n        if cat \"$SEED_FILE\" | docker exec -i pg-test-customer psql -U "

def tfTk6 : String :=
  " -d "

def tfTk7 : String :=
  " 2>&1 | grep -v \"does not exist, skipping\"; then\n          echo \"✓ Successfully loaded seed data into test customer database\"\n        else\n          echo \"⚠️  WARNING: Failed to load seed data into test customer database\"\n          echo \"⚠️  This may be expected if the database is not running or the seed data has issues\"\n          exit 0\n        fi\n\n  seed:verify:test:generated:\n    desc: Verify seed data in test customer database (from db-testkit)\n    cmds:\n      - echo \"Verifying seed data in test customer database...\"\n      - docker exec pg-test-customer psql -U "

def tfTk8 : String :=
  " -d "

def tfTk9 : String :=
  " -c \"SELECT schemaname, relname as tablename, n_live_tup as row_count FROM pg_stat_user_tables WHERE schemaname = \x27stage\x27 AND relname LIKE \x27olist%\x27 ORDER BY relname;\"\n\n  seed:reload:test:generated:\n    desc: Reload seed data in test customer database (from db-testkit)\n    cmds:\n      - echo \"Dropping stage schema in test customer database...\"\n      - docker exec pg-test-customer psql -U "

def tfTk10 : String :=
  " -d "

def tfTk11 : String :=
  " -c \"DROP SCHEMA IF EXISTS stage CASCADE;\"\n      - task: seed:load:test:generated\n\n  seed:clean:test:generated:\n    desc: Clean seed data from test customer database (from db-testkit)\n    cmds:\n      - echo \"Dropping stage schema from test customer database...\"\n      - docker exec pg-test-customer psql -U "

def tfTk12 : String :=
  " -d "

def tfTk13 : String :=
  " -c \"DROP SCHEMA IF EXISTS stage CASCADE;\"\n      - echo \"✓ Successfully dropped stage schema from test customer database\"\n\n  # Both databases seed tasks\n  seed:load:all:generated:\n    desc: Load seed data into both dev and test customer databases (from db-testkit)\n    cmds:\n      - echo \"Loading seed data into all customer databases...\"\n      - task: seed:load:dev:generated\n      - task: seed:load:test:generated\n\n  seed:verify:all:generated:\n    desc: Verify seed data in both dev and test customer databases (from db-testkit)\n    cmds:\n      - task: seed:verify:dev:generated\n      - echo \"\"\n      - task: seed:verify:test:generated\n\n  seed:reload:all:generated:\n    desc: Reload seed data in both dev and test customer databases (from db-testkit)\n    cmds:\n      - task: seed:reload:dev:generated\n      - task: seed:reload:test:generated\n\n  seed:clean:all:generated:\n    desc: Clean seed data from both dev and test customer databases (from db-testkit)\n    cmds:\n      - task: seed:clean:dev:generated\n      - task: seed:clean:test:generated\n"

def taskfileTasksRest (c : TestDBCredentials) : String :=
  tfTk1
  ++ c.CustomerUser
  ++ tfTk2
  ++ c.CustomerDB
  ++ tfTk3
  ++ c.InternalUser
  ++ tfTk4
  ++ c.InternalDB
  ++ tfTk5
  ++ c.CustomerUser
  ++ tfTk6
  ++ c.CustomerDB
  ++ tfTk7
  ++ c.CustomerUser
  ++ tfTk8
  ++ c.CustomerDB
  ++ tfTk9
  ++ c.CustomerUser
  ++ tfTk10
  ++ c.CustomerDB
  ++ tfTk11
  ++ c.CustomerUser
  ++ tfTk12
  ++ c.CustomerDB
  ++ tfTk13

def taskfileTasksSection (c : TestDBCredentials) : String :=
  taskfileStartBlock ++ taskfileTasksRest c

def taskfileTasksChunks : List String :=
  [taskfileStartBlock, tfTk1, tfTk2, tfTk3, tfTk4, tfTk5, tfTk6, tfTk7, tfTk8, tfTk9, tfTk10, tfTk11, tfTk12, tfTk13]

def renderTaskfile (c : TestDBCredentials) (ts : String) : String :=
  tfGen ++ ts ++ tfSrc ++ taskfileVarsSection c ++ taskfileTasksSection c

def cpGen : String :=
  "# Connection Profiles for Automated Testing\n# 🤖 THIS FILE IS AUTO-GENERATED from docker-compose.yml\n# DO NOT EDIT MANUALLY - Run \x27go generate ./...\x27 or your dev tool to regenerate\n# Generated on: "

def cpTk1 : String :=
  "\n# ---------------------------------------------------------------------------\nconnection_profiles:\n  # Automated testing environment (references docker-compose.yml)\n  test:\n    type: \"postgresql\"\n    host: \""

def cpTk2 : String :=
  "\"\n    port: "

def cpTk3 : String :=
  "  # From docker-compose.yml db-test-customer port\n    user: \""

def cpTk4 : String :=
  "\"  # From docker-compose.yml POSTGRES_USER\n    password: \""

def cpTk5 : String :=
  "\"  # From docker-compose.yml POSTGRES_PASSWORD\n    database: \""

def cpTk6 : String :=
  "\"  # From docker-compose.yml POSTGRES_DB\n    sslmode: \"disable\"\n    target_schema: \"daana_dw\"\n"

def cpBody (c : TestDBCredentials) : String :=
  cpTk1
  ++ c.CustomerHost
  ++ cpTk2
  ++ c.CustomerPort
  ++ cpTk3
  ++ c.CustomerUser
  ++ cpTk4
  ++ c.CustomerPassword
  ++ cpTk5
  ++ c.CustomerDB
  ++ cpTk6

def renderConnectionProfiles (c : TestDBCredentials) (ts : String) : String :=
  cpGen ++ ts ++ cpBody c

/-- Modelled from the spec: the typed-constants generator
(`GenerateGoConstants`, pkg/generator/goconfig.go, is not among the provided
sources — only the spec and the README describe it).  Per the spec it emits a
Go source fragment with one constant per `TestDBCredentials` field, named
`Default<Entity><Field>`, port fields as integer literals, the other fields as
string literals, under a generation-timestamp header. This is its header up to
the timestamp. -/
def gcGen : String :=
  "// Code generated from docker-compose.yml; DO NOT EDIT.\n// Generated on: "

/-- Modelled from the spec: body of the typed-constants artifact after the
timestamp, one `Default<Entity><Field>` constant per credentials field with
ports as integer literals. -/
def gcBody (c : TestDBCredentials) : String :=
  "\n\npackage project\n\nconst (\n    DefaultCustomerHost     = \""
  ++ c.CustomerHost
  ++ "\"\n    DefaultCustomerPort     = "
  ++ c.CustomerPort
  ++ "\n    DefaultCustomerUser     = \""
  ++ c.CustomerUser
  ++ "\"\n    DefaultCustomerPassword = \""
  ++ c.CustomerPassword
  ++ "\"\n    DefaultCustomerDB       = \""
  ++ c.CustomerDB
  ++ "\"\n    DefaultInternalHost     = \""
  ++ c.InternalHost
  ++ "\"\n    DefaultInternalPort     = "
  ++ c.InternalPort
  ++ "\n    DefaultInternalUser     = \""
  ++ c.InternalUser
  ++ "\"\n    DefaultInternalPassword = \""
  ++ c.InternalPassword
  ++ "\"\n    DefaultInternalDB       = \""
  ++ c.InternalDB
  ++ "\"\n)\n"

/-- Modelled from the spec: the full rendered typed-constants artifact. -/
def renderGoConstants (c : TestDBCredentials) (ts : String) : String :=
  gcGen ++ ts ++ gcBody c

/-- A file system: the set of existing directories and the files with their
contents.  Paths are component lists; the empty path is the working
directory, which always exists. -/
structure FileSystem where
  dirs : List (List String)
  files : List (List String × String)
deriving DecidableEq

/-- `filepath.Dir` on a component path: drop the last component. -/
def parentDir (p : List String) : List String := p.dropLast

/-- All non-empty prefixes of a directory path, as `os.MkdirAll` creates the
directory together with its ancestors. -/
def pathPrefixes (d : List String) : List (List String) :=
  (List.range d.length).map (fun i => d.take (i + 1))

/-- `os.MkdirAll`: add the directory and all its ancestors. -/
def mkdirAll (fs : FileSystem) (d : List String) : FileSystem :=
  { fs with dirs := pathPrefixes d ++ fs.dirs }

/-- `os.Create`: truncate/overwrite the file when the parent directory
exists, fail otherwise. -/
def createFile (fs : FileSystem) (p : List String) (content : String) :
    Except String FileSystem :=
  if parentDir p = [] ∨ parentDir p ∈ fs.dirs then
    .ok { fs with files := (p, content) :: fs.files.filter (fun q => !(q.1 == p)) }
  else .error "failed to create file"

/-- `GenerateTaskfile` from pkg/generator/taskfile.go: parses the template
(which always succeeds), calls `os.Create` on the output path directly — there
is no `MkdirAll` in this generator — and writes the rendered taskfile. -/
def GenerateTaskfile (c : TestDBCredentials) (ts : String) (outputPath : List String)
    (fs : FileSystem) : Except String FileSystem :=
  createFile fs outputPath (renderTaskfile c ts)

/-- `GenerateConnectionProfiles` from pkg/generator/profiles.go: `os.MkdirAll`
on the output path's parent, then `os.Create` and write. -/
def GenerateConnectionProfiles (c : TestDBCredentials) (ts : String)
    (outputPath : List String) (fs : FileSystem) : Except String FileSystem :=
  createFile (mkdirAll fs (parentDir outputPath)) outputPath
    (renderConnectionProfiles c ts)

/-- Modelled from the spec: `GenerateGoConstants` writes the typed-constants
artifact, creating parent directories as needed (its source file is not among
the provided sources). -/
def GenerateGoConstants (c : TestDBCredentials) (ts : String)
    (outputPath : List String) (fs : FileSystem) : Except String FileSystem :=
  createFile (mkdirAll fs (parentDir outputPath)) outputPath
    (renderGoConstants c ts)

/-- Whether the pattern is an initial segment of the character list. -/
def charsStartWith : List Char → List Char → Bool
  | p :: ps, c :: cs => p == c && charsStartWith ps cs
  | [], _ => true
  | _ :: _, [] => false

/-- Whether the pattern occurs as a contiguous sublist. -/
def charsContain : List Char → List Char → Bool
  | s, pat =>
    if charsStartWith pat s then true
    else
      match s with
      | [] => false
      | _ :: cs => charsContain cs pat

/-- Substring occurrence test on strings. -/
def strContains (s pat : String) : Bool :=
  charsContain s.data pat.data

/-- Surround a string with double quotes, as the YAML templates quote their
string-valued fields. -/
def quoteStr (s : String) : String := "\"" ++ s ++ "\""

/-- The connection-profile descriptor as the spec describes it: the fixed key
set of the single "test" profile with its values drawn from the customer
fields of the credentials, TLS disabled and a fixed target schema. -/
def connectionProfileEntries (c : TestDBCredentials) : List (String × String) :=
  [("type", quoteStr "postgresql"),
   ("host", quoteStr c.CustomerHost),
   ("port", c.CustomerPort),
   ("user", quoteStr c.CustomerUser),
   ("password", quoteStr c.CustomerPassword),
   ("database", quoteStr c.CustomerDB),
   ("sslmode", quoteStr "disable"),
   ("target_schema", quoteStr "daana_dw")]

/-- The end-of-line comment the profile template attaches to a given key. -/
def profileEntryComment (key : String) : String :=
  if key == "port" then "  # From docker-compose.yml db-test-customer port"
  else if key == "user" then "  # From docker-compose.yml POSTGRES_USER"
  else if key == "password" then "  # From docker-compose.yml POSTGRES_PASSWORD"
  else if key == "database" then "  # From docker-compose.yml POSTGRES_DB"
  else ""

/-- One rendered profile line: four-space indent, key, value, comment. -/
def profileEntryLine (e : String × String) : String :=
  "    " ++ e.1 ++ ": " ++ e.2 ++ profileEntryComment e.1 ++ "\n"

/-- The customer half of the taskfile variables section: five named
credential values, as the template lists them. -/
def taskfileVarsCustomer (c : TestDBCredentials) : List (String × String) :=
  [("TEST_CUSTOMER_HOST", c.CustomerHost),
   ("TEST_CUSTOMER_PORT", c.CustomerPort),
   ("TEST_CUSTOMER_USER", c.CustomerUser),
   ("TEST_CUSTOMER_PASSWORD", c.CustomerPassword),
   ("TEST_CUSTOMER_DB", c.CustomerDB)]

/-- The internal half of the taskfile variables section: five named
credential values, as the template lists them. -/
def taskfileVarsInternal (c : TestDBCredentials) : List (String × String) :=
  [("TEST_INTERNAL_HOST", c.InternalHost),
   ("TEST_INTERNAL_PORT", c.InternalPort),
   ("TEST_INTERNAL_USER", c.InternalUser),
   ("TEST_INTERNAL_PASSWORD", c.InternalPassword),
   ("TEST_INTERNAL_DB", c.InternalDB)]

/-- The variables section of the task-definition artifact as the spec
describes it: ten named credential values. -/
def taskfileVars (c : TestDBCredentials) : List (String × String) :=
  taskfileVarsCustomer c ++ taskfileVarsInternal c

/-- One rendered variable line of the taskfile vars section. -/
def taskfileVarLine (e : String × String) : String :=
  "  " ++ e.1 ++ ": " ++ quoteStr e.2 ++ "\n"

theorem mem_dirs_mkdirAll (fs : FileSystem) (d : List String) (h : d ≠ []) :
    d ∈ (mkdirAll fs d).dirs := by
  have hl : 0 < d.length := List.length_pos.mpr h
  refine List.mem_append.mpr (Or.inl ?_)
  refine List.mem_map.mpr ⟨d.length - 1, List.mem_range.mpr (by omega), ?_⟩
  rw [Nat.sub_add_cancel hl]
  exact List.take_length _

theorem createFile_ok (fs : FileSystem) (p : List String) (content : String)
    (h : parentDir p = [] ∨ parentDir p ∈ fs.dirs) :
    createFile fs p content =
      .ok { fs with files := (p, content) :: fs.files.filter (fun q => !(q.1 == p)) } := by
  unfold createFile
  rw [if_pos h]

theorem parent_in_mkdirAll (fs : FileSystem) (p : List String) :
    parentDir p = [] ∨ parentDir p ∈ (mkdirAll fs (parentDir p)).dirs := by
  by_cases h : parentDir p = []
  · exact Or.inl h
  · exact Or.inr (mem_dirs_mkdirAll _ _ h)

theorem lookup_fresh {β : Type} (k : List String) (v : β)
    (rest : List (List String × β)) :
    List.lookup k ((k, v) :: rest) = some v := by
  simp [List.lookup]

/-- C5 counterexample: `GenerateTaskfile` does not create the parent directory
of its output path; on a file system with no directories, writing to
testdata/Taskfile.generated.yml fails with a file-creation error instead of
succeeding. -/
theorem generateTaskfile_missing_parent_fails :
    GenerateTaskfile sampleCreds "2025-01-01 00:00:00 UTC"
      ["testdata", "Taskfile.generated.yml"] { dirs := [], files := [] } =
    .error "failed to create file" := by
  rfl

/-- C5 (amended): the connection-profile generator and the spec-modelled
typed-constants generator create the output path's parent directories as
needed before writing and overwrite any existing file at the path; the
task-definition generator `GenerateTaskfile` does not create parent
directories — it overwrites an existing file when the parent directory
already exists (or the path is a bare filename) and fails with a
file-creation error when the parent directory does not exist. -/
theorem generators_dirs_and_overwrite (c : TestDBCredentials) (ts : String)
    (path : List String) (fs : FileSystem) :
    (∃ fs2, GenerateConnectionProfiles c ts path fs = .ok fs2 ∧
      fs2.files.lookup path = some (renderConnectionProfiles c ts))
    ∧ (∃ fs2, GenerateGoConstants c ts path fs = .ok fs2 ∧
      fs2.files.lookup path = some (renderGoConstants c ts))
    ∧ ((parentDir path = [] ∨ parentDir path ∈ fs.dirs) →
      ∃ fs2, GenerateTaskfile c ts path fs = .ok fs2 ∧
        fs2.files.lookup path = some (renderTaskfile c ts))
    ∧ (¬(parentDir path = [] ∨ parentDir path ∈ fs.dirs) →
      GenerateTaskfile c ts path fs = .error "failed to create file") := by
  refine ⟨⟨_, createFile_ok _ _ _ (parent_in_mkdirAll fs path), lookup_fresh _ _ _⟩,
    ⟨_, createFile_ok _ _ _ (parent_in_mkdirAll fs path), lookup_fresh _ _ _⟩,
    fun h => ⟨_, createFile_ok _ _ _ h, lookup_fresh _ _ _⟩,
    fun h => ?_⟩
  unfold GenerateTaskfile createFile
  rw [if_neg h]

/-- Witness for C5 (amended): with a bare filename (parent directory is the
working directory) `GenerateTaskfile` succeeds and writes the rendered
taskfile. -/
theorem generators_dirs_and_overwrite_witness :
    ∃ fs2, GenerateTaskfile sampleCreds "2025-01-01 00:00:00 UTC"
        ["Taskfile.generated.yml"] { dirs := [], files := [] } = .ok fs2 ∧
      fs2.files.lookup ["Taskfile.generated.yml"] =
        some (renderTaskfile sampleCreds "2025-01-01 00:00:00 UTC") :=
  (generators_dirs_and_overwrite sampleCreds "2025-01-01 00:00:00 UTC"
    ["Taskfile.generated.yml"] { dirs := [], files := [] }).2.2.1 (Or.inl rfl)

/-- C6: each generator's rendered artifact is a pure function of the
credentials and the timestamp, and depends on the timestamp only at the
single generated-on header position: for fixed credentials the output is a
fixed literal prefix, then the timestamp, then a suffix determined entirely
by the credentials — so two invocations with the same credentials differ
exactly in the embedded timestamp. -/
theorem generators_deterministic_modulo_timestamp (c : TestDBCredentials) :
    (∃ p s, ∀ t, renderTaskfile c t = p ++ t ++ s)
    ∧ (∃ p s, ∀ t, renderConnectionProfiles c t = p ++ t ++ s)
    ∧ (∃ p s, ∀ t, renderGoConstants c t = p ++ t ++ s) := by
  refine ⟨⟨tfGen, tfSrc ++ taskfileVarsSection c ++ taskfileTasksSection c, fun t => ?_⟩,
    ⟨cpGen, cpBody c, fun t => rfl⟩, ⟨gcGen, gcBody c, fun t => rfl⟩⟩
  apply String.ext
  simp only [renderTaskfile, String.data_append, List.append_assoc]

/-- C7: the connection-profile generator emits exactly one profile, named
"test", under the top-level "connection_profiles" key, with the fixed key set
type, host, port, user, password, database, sslmode, target_schema populated
from the credentials' customer fields; TLS is always disabled and the target
schema is the fixed literal daana_dw. -/
theorem connectionProfiles_single_test_profile (c : TestDBCredentials) (ts : String) :
    renderConnectionProfiles c ts =
      cpGen ++ ts
      ++ "\n# ---------------------------------------------------------------------------\n"
      ++ "connection_profiles:\n"
      ++ "  # Automated testing environment (references docker-compose.yml)\n"
      ++ "  test:\n"
      ++ String.join ((connectionProfileEntries c).map profileEntryLine)
    ∧ (connectionProfileEntries c).map Prod.fst =
        ["type", "host", "port", "user", "password", "database", "sslmode", "target_schema"]
    ∧ (connectionProfileEntries c).lookup "sslmode" = some (quoteStr "disable")
    ∧ (connectionProfileEntries c).lookup "target_schema" = some (quoteStr "daana_dw")
    ∧ (connectionProfileEntries c).lookup "host" = some (quoteStr c.CustomerHost)
    ∧ (connectionProfileEntries c).lookup "port" = some c.CustomerPort
    ∧ (connectionProfileEntries c).lookup "user" = some (quoteStr c.CustomerUser)
    ∧ (connectionProfileEntries c).lookup "password" = some (quoteStr c.CustomerPassword)
    ∧ (connectionProfileEntries c).lookup "database" = some (quoteStr c.CustomerDB) := by
  refine ⟨?_, rfl, rfl, rfl, rfl, rfl, rfl, rfl, rfl⟩
  apply String.ext
  simp only [renderConnectionProfiles, cpBody, cpGen, cpTk1, cpTk2, cpTk3, cpTk4,
    cpTk5, cpTk6, connectionProfileEntries, profileEntryLine, profileEntryComment,
    quoteStr, String.join, List.map, List.foldl, String.data_append,
    List.append_assoc, List.nil_append, List.append_nil]
  rfl


/-- C8 counterexample: in the artifact generated for the sample credentials,
the credential-bearing command bodies embed the credential values directly —
the tasks text around the substituted values (`tfTk1`–`tfTk4`, the psql task
bodies) and the substituted values themselves contain no occurrence of any
declared variable name (all ten begin with "TEST_"), so the generated command
bodies do not reference the variables, which occur in the vars section only. -/
theorem taskfile_bodies_no_var_references :
    renderTaskfile sampleCreds "2025-01-01 00:00:00 UTC" =
      tfGen ++ "2025-01-01 00:00:00 UTC" ++ tfSrc ++ taskfileVarsSection sampleCreds
        ++ taskfileTasksSection sampleCreds
    ∧ taskfileTasksRest sampleCreds =
        tfTk1 ++ "autotester" ++ tfTk2 ++ "testcustomerdb" ++ tfTk3 ++ "autotester"
        ++ tfTk4 ++ "testinternaldb" ++ tfTk5 ++ "autotester" ++ tfTk6 ++ "testcustomerdb"
        ++ tfTk7 ++ "autotester" ++ tfTk8 ++ "testcustomerdb" ++ tfTk9 ++ "autotester"
        ++ tfTk10 ++ "testcustomerdb" ++ tfTk11 ++ "autotester" ++ tfTk12
        ++ "testcustomerdb" ++ tfTk13
    ∧ ([tfTk1, tfTk2, tfTk3, tfTk4, "autotester", "testcustomerdb",
        "testinternaldb"].all (fun s => !(strContains s "TEST_"))) = true
    ∧ strContains (taskfileVarsSection sampleCreds) "TEST_CUSTOMER_USER" = true :=
  ⟨rfl, rfl, rfl, rfl⟩

/-- C8 (amended): the task-definition artifact has a variables section with
exactly 10 named credential values; its fixed task entries embed the
credential values directly (generation-time substitution — the declared
variables are not referenced by the generated command bodies, whose text
around the substituted values contains no variable name) and invoke the
readiness-wait shell script with a container name and a timeout in seconds as
positional arguments; the generator evaluates no conditional logic beyond
variable substitution (the output is a fixed concatenation of literal chunks
and credential fields). -/
theorem taskfile_vars_and_tasks_structure (c : TestDBCredentials) (ts : String) :
    renderTaskfile c ts =
      tfGen ++ ts ++ tfSrc ++ taskfileVarsSection c ++ taskfileStartBlock
        ++ taskfileTasksRest c
    ∧ taskfileVarsSection c =
        "vars:\n  # Automated testing database credentials (from docker-compose.yml)\n"
        ++ String.join ((taskfileVarsCustomer c).map taskfileVarLine) ++ "\n"
        ++ String.join ((taskfileVarsInternal c).map taskfileVarLine) ++ "\n"
    ∧ (taskfileVars c).map Prod.fst =
        ["TEST_CUSTOMER_HOST", "TEST_CUSTOMER_PORT", "TEST_CUSTOMER_USER",
         "TEST_CUSTOMER_PASSWORD", "TEST_CUSTOMER_DB", "TEST_INTERNAL_HOST",
         "TEST_INTERNAL_PORT", "TEST_INTERNAL_USER", "TEST_INTERNAL_PASSWORD",
         "TEST_INTERNAL_DB"]
    ∧ (taskfileVars c).length = 10
    ∧ taskfileTasksRest c =
        tfTk1 ++ c.CustomerUser ++ tfTk2 ++ c.CustomerDB ++ tfTk3 ++ c.InternalUser
        ++ tfTk4 ++ c.InternalDB ++ tfTk5 ++ c.CustomerUser ++ tfTk6 ++ c.CustomerDB
        ++ tfTk7 ++ c.CustomerUser ++ tfTk8 ++ c.CustomerDB ++ tfTk9 ++ c.CustomerUser
        ++ tfTk10 ++ c.CustomerDB ++ tfTk11 ++ c.CustomerUser ++ tfTk12
        ++ c.CustomerDB ++ tfTk13
    ∧ ([tfTk1, tfTk2, tfTk3, tfTk4].all (fun s => !(strContains s "TEST_"))) = true
    ∧ strContains taskfileStartBlock
        "./scripts/wait-for-healthy.sh pg-test-customer 90" = true
    ∧ strContains taskfileStartBlock
        "./scripts/wait-for-healthy.sh pg-test-internal 90" = true := by
  refine ⟨?_, ?_, rfl, rfl, rfl, rfl, rfl, rfl⟩
  · apply String.ext
    simp only [renderTaskfile, taskfileTasksSection, String.data_append,
      List.append_assoc]
  · apply String.ext
    simp only [taskfileVarsSection, taskfileVarsCustomer, taskfileVarsInternal,
      taskfileVarLine, quoteStr, String.join, List.map, List.foldl,
      String.data_append, List.append_assoc, List.nil_append, List.append_nil]
    rfl
